/-
Verification of the weather ingestion pipeline (collect_weather_data.py,
create_tables.py) against its specification.

Shallow embedding conventions:
  * Numeric weather values are modelled as rationals (ℚ); Python float
    arithmetic is idealised as exact rational arithmetic.
  * Python round(x, 1) rounds half to even; it is modelled by pyRound1.
  * Python int(x) truncates toward zero; it is modelled by pyInt.
  * Calendar dates are modelled as day ordinals (ℕ); Python's
    datetime.timedelta(days=1) becomes successor, and date comparison is ≤.
  * Randomness (random.uniform / random.randint / random.random /
    random.choices / random.choice) is modelled by explicit draw parameters;
    theorems quantify over all draws within the documented ranges.
  * The SQL store is modelled as a list of rows; SELECT-by-key + fetchone is
    find?, UPDATE-by-id of the fetched row is replacement of the first
    matching row, INSERT is append.  SQL aggregates (AVG/MIN/MAX) skip NULLs,
    modelled by aggregating the list of present (non-none) values.
-/
import Mathlib

namespace Weather

/-! ## Condition classification (collect_weather_data.py lines 307-358) -/

/-- Translation of `get_weather_condition(precipitation, rain, snowfall)`, lines 307-329. -/
def get_weather_condition (precipitation rain snowfall : ℚ) : String :=
  if snowfall > 0 then "Snow"
  else if rain > 0 then
    (if rain > 10 then "Heavy Rain" else "Rain")
  else if precipitation > 0 then "Precipitation"
  else "Clear"

/-- Translation of `get_weather_description(precipitation, rain, snowfall)`, lines 331-358. -/
def get_weather_description (precipitation rain snowfall : ℚ) : String :=
  if snowfall > 0 then
    (if snowfall > 5 then "Heavy snow" else "Light snow")
  else if rain > 0 then
    (if rain > 10 then "Heavy rain"
     else if rain > 2 then "Moderate rain"
     else "Light rain")
  else if precipitation > 0 then "Precipitation"
  else "Clear sky"

/-! ## Python numeric primitives -/

/-- Python `round(x)` (banker's rounding: round half to even) on a rational. -/
def pyRoundInt (q : ℚ) : ℤ :=
  if q - ⌊q⌋ < 1/2 then ⌊q⌋
  else if 1/2 < q - ⌊q⌋ then ⌊q⌋ + 1
  else if 2 ∣ ⌊q⌋ then ⌊q⌋ else ⌊q⌋ + 1

/-- Python `round(x, 1)`: round to one decimal place, half to even. -/
def pyRound1 (q : ℚ) : ℚ := (pyRoundInt (q * 10) : ℚ) / 10

/-- Python `int(x)`: truncation toward zero. -/
def pyInt (q : ℚ) : ℤ := if 0 ≤ q then ⌊q⌋ else ⌈q⌉

/-! ## Daily weather records

One element of the list returned by `get_historical_weather_data` /
`generate_sample_weather_data` (the dict built at lines 140-152 / 286-298). -/

structure DayRec where
  date : ℕ
  temperature : ℚ
  temperature_min : ℚ
  temperature_max : ℚ
  feels_like : ℚ
  pressure : Option ℤ
  humidity : Option ℤ
  wind_speed : ℚ
  wind_direction : ℤ
  weather_condition : String
  weather_description : String
deriving DecidableEq

/-! ## Synthetic generator (collect_weather_data.py lines 160-305) -/

inductive Season
  | winter
  | spring
  | summer
  | fall
deriving DecidableEq

/-- Season selection from the invocation month and hemisphere, lines 186-203. -/
def seasonOf (is_northern : Bool) (month : ℕ) : Season :=
  if is_northern then
    if month = 12 ∨ month = 1 ∨ month = 2 then Season.winter
    else if month = 3 ∨ month = 4 ∨ month = 5 then Season.spring
    else if month = 6 ∨ month = 7 ∨ month = 8 then Season.summer
    else Season.fall
  else
    if month = 12 ∨ month = 1 ∨ month = 2 then Season.summer
    else if month = 3 ∨ month = 4 ∨ month = 5 then Season.fall
    else if month = 6 ∨ month = 7 ∨ month = 8 then Season.winter
    else Season.spring

/-- Seasonal base temperature, lines 206-217. -/
def baseTempOf (is_northern : Bool) (season : Season) : ℚ :=
  match season with
  | Season.winter => if is_northern then 5 else 15
  | Season.spring => if is_northern then 15 else 20
  | Season.summer => if is_northern then 25 else 30
  | Season.fall => if is_northern then 15 else 20

/-- Seasonal temperature range, lines 206-217 (always 10). -/
def tempRangeOf (_season : Season) : ℚ := 10

/-- The hemisphere test `latitude > 0`, line 179. -/
def isNorthernOf (latitude : ℚ) : Bool := decide (0 < latitude)

/-- Base temperature after the latitude adjustment of lines 219-224:
subtract `(|latitude| / 90) * 10` in either hemisphere. -/
def adjustedBaseTemp (latitude : ℚ) (month : ℕ) : ℚ :=
  baseTempOf (isNorthernOf latitude) (seasonOf (isNorthernOf latitude) month)
    - |latitude| / 90 * 10

/-- The population of conditions, line 227. -/
def weather_conditions : List String :=
  ["Clear", "Clouds", "Rain", "Snow", "Thunderstorm"]

/-- The per-condition description phrase sets, lines 228-234. -/
def weather_descriptions (cond : String) : List String :=
  if cond = "Clear" then ["clear sky", "sunny", "mostly clear"]
  else if cond = "Clouds" then ["few clouds", "scattered clouds", "overcast"]
  else if cond = "Rain" then ["light rain", "moderate rain", "heavy rain", "showers"]
  else if cond = "Snow" then ["light snow", "moderate snow", "heavy snow", "blizzard"]
  else ["thunderstorm", "thunderstorm with rain", "severe thunderstorm"]

/-- Model of `random.choices(population, weights=ws, k=1)[0]` with `u01 = random.random()`:
cumulative weights, then a right bisection of `u01 * total` over the first
`len(population) - 1` cumulative weights. -/
def pyChoice (population : List String) (ws : List ℚ) (u01 : ℚ) : String :=
  let cum := (ws.scanl (· + ·) 0).tail
  let x := u01 * cum.getLastD 0
  population.getD ((cum.take (population.length - 1)).countP (fun c => decide (c ≤ x))) ""

/-- The random draws consumed by one iteration of the generation loop:
`dTemp` for the temperature walk (line 245/248), `dMin`/`dMax` for
`random.uniform(1, 5)` (lines 254-255), `dFeels` for `random.uniform(-2, 2)`,
`dHum` for `random.uniform(-10, 10)`, `dPress` for `random.uniform(-15, 15)`,
`dWind` for `random.uniform(0, 20)`, `dWindDir` for `random.randint(0, 359)`,
`dCond` for the `random.random()` value behind `random.choices`, and
`dDesc` for the index behind `random.choice`. -/
structure DayDraws where
  dTemp : ℚ
  dMin : ℚ
  dMax : ℚ
  dFeels : ℚ
  dHum : ℚ
  dPress : ℚ
  dWind : ℚ
  dWindDir : ℤ
  dCond : ℚ
  dDesc : ℕ
deriving DecidableEq

/-- The body of the generation loop after the (already clamped) mean
temperature is fixed: lines 253-298. -/
def genDay (date : ℕ) (tempMean : ℚ) (d : DayDraws) : DayRec :=
  let temp_min := tempMean - d.dMin
  let temp_max := tempMean + d.dMax
  let feels_like := tempMean + d.dFeels
  let humidity := max 10 (min 100 (pyInt (40 + tempMean / 50 * 40 + d.dHum)))
  let pressure := pyInt (1013 + d.dPress)
  let weights :=
    if temp_min < 0 then [(2:ℚ)/10, 2/10, 1/10, 4/10, 1/10]
    else if tempMean > 30 then [(3:ℚ)/10, 3/10, 2/10, 0, 2/10]
    else [(3:ℚ)/10, 3/10, 2/10, 1/10, 1/10]
  let cond := pyChoice weather_conditions weights d.dCond
  let descs := weather_descriptions cond
  { date := date
    temperature := pyRound1 tempMean
    temperature_min := pyRound1 temp_min
    temperature_max := pyRound1 temp_max
    feels_like := pyRound1 feels_like
    pressure := some pressure
    humidity := some humidity
    wind_speed := pyRound1 d.dWind
    wind_direction := d.dWindDir
    weather_condition := cond
    weather_description := descs.getD (d.dDesc % descs.length) "" }

/-- The `while current_date <= end_date` loop of lines 240-303, with the
remaining day count as fuel, the previous day's (rounded, stored) mean
temperature threaded through, and `idx` counting loop iterations for
draw indexing.  The mean temperature walk and clamp are lines 242-251. -/
def genLoop (latitude : ℚ) (month : ℕ) (draws : ℕ → DayDraws) :
    ℕ → ℕ → Option ℚ → ℕ → List DayRec
  | 0, _, _, _ => []
  | fuel + 1, cur, prev, idx =>
    let d := draws idx
    let raw :=
      match prev with
      | some p => p + d.dTemp
      | none => adjustedBaseTemp latitude month + d.dTemp
    let tempMean := max (-30) (min 50 raw)
    let r := genDay cur tempMean d
    r :: genLoop latitude month draws fuel (cur + 1) (some r.temperature) (idx + 1)

/-- Translation of `generate_sample_weather_data(start_date_str, end_date_str, latitude)`,
lines 160-305, with the invocation month and the random draws explicit. -/
def generate_sample_weather_data (start_date end_date : ℕ) (latitude : ℚ)
    (month : ℕ) (draws : ℕ → DayDraws) : List DayRec :=
  genLoop latitude month draws (end_date + 1 - start_date) start_date none 0

/-- The documented range of each random draw: the temperature-walk noise is
uniform on [-range/2, range/2] = [-5, 5] on the first day and uniform on
[-3, 3] afterwards; the remaining draws follow lines 253-269 and 282-283. -/
def ValidDraw (firstDay : Bool) (d : DayDraws) : Prop :=
  (if firstDay then -(5:ℚ) ≤ d.dTemp ∧ d.dTemp ≤ 5
   else -(3:ℚ) ≤ d.dTemp ∧ d.dTemp ≤ 3) ∧
  (1 ≤ d.dMin ∧ d.dMin ≤ 5) ∧ (1 ≤ d.dMax ∧ d.dMax ≤ 5) ∧
  (-(2:ℚ) ≤ d.dFeels ∧ d.dFeels ≤ 2) ∧ (-(10:ℚ) ≤ d.dHum ∧ d.dHum ≤ 10) ∧
  (-(15:ℚ) ≤ d.dPress ∧ d.dPress ≤ 15) ∧ (0 ≤ d.dWind ∧ d.dWind ≤ 20) ∧
  (0 ≤ d.dWindDir ∧ d.dWindDir ≤ 359) ∧ (0 ≤ d.dCond ∧ d.dCond < 1)

/-- All draws of a run are in range (draw 0 is the first day's draw). -/
def ValidDraws (draws : ℕ → DayDraws) : Prop :=
  ∀ i, ValidDraw (decide (i = 0)) (draws i)

/-- Invariant of a stored mean temperature: inside [-30, 50] and a multiple
of one tenth (it is the result of `round(x, 1)` after the clamp). -/
def TempOk (t : ℚ) : Prop := -30 ≤ t ∧ t ≤ 50 ∧ ∃ m : ℤ, t = (m : ℚ) / 10

/-- A concrete in-range draw (used to exhibit concrete runs). -/
def calmDraw : DayDraws := ⟨0, 1, 1, 0, 0, 0, 0, 0, 0, 0⟩

/-- A concrete in-range draw sequence. -/
def calmDraws : ℕ → DayDraws := fun _ => calmDraw

/-- A concrete in-range draw sequence whose first-day noise is +5. -/
def hotFirstDraws : ℕ → DayDraws :=
  fun i => if i = 0 then ⟨5, 1, 1, 0, 0, 0, 0, 0, 0, 0⟩ else calmDraw

/-! ## Historical fetcher (collect_weather_data.py lines 48-158)

The `data['daily']` JSON object is modelled by `DailySeries`: `time` is the
list of reported dates, and each optional daily field is a function from the
position `i` to the value at that position, `none` standing both for a JSON
null at position `i` and for the whole key being absent
(`daily.get(key, [None] * len(time_array))[i]`). -/

structure DailySeries where
  time : List ℕ
  temperature_2m_mean : ℕ → Option ℚ
  temperature_2m_min : ℕ → Option ℚ
  temperature_2m_max : ℕ → Option ℚ
  apparent_temperature_max : ℕ → Option ℚ
  apparent_temperature_min : ℕ → Option ℚ
  precipitation_sum : ℕ → Option ℚ
  rain_sum : ℕ → Option ℚ
  snowfall_sum : ℕ → Option ℚ
  windspeed_10m_max : ℕ → Option ℚ
  winddirection_10m_dominant : ℕ → Option ℤ
  relative_humidity_2m_max : ℕ → Option ℚ
  relative_humidity_2m_min : ℕ → Option ℚ
  pressure_msl_max : ℕ → Option ℚ
  pressure_msl_min : ℕ → Option ℚ

/-- One iteration of the `for i in range(len(time_array))` loop of
lines 87-153: `none` when the day is skipped (line 94), otherwise the built
record.  `wdDraw` is the `random.randint(0, 359)` draw of line 130. -/
def processDay (daily : DailySeries) (wdDraw : ℤ) (i : ℕ) : Option DayRec :=
  match daily.temperature_2m_mean i, daily.temperature_2m_min i,
      daily.temperature_2m_max i with
  | some temp_mean, some temp_min, some temp_max =>
    let feels_like :=
      match daily.apparent_temperature_max i, daily.apparent_temperature_min i with
      | some amax, some amin => (amax + amin) / 2
      | _, _ => temp_mean
    let humidity :=
      match daily.relative_humidity_2m_max i, daily.relative_humidity_2m_min i with
      | some hmax, some hmin => some (pyInt ((hmax + hmin) / 2))
      | _, _ => none
    let pressure :=
      match daily.pressure_msl_max i, daily.pressure_msl_min i with
      | some pmax, some pmin => some (pyInt ((pmax + pmin) / 2))
      | _, _ => none
    let precipitation := (daily.precipitation_sum i).getD 0
    let rain := (daily.rain_sum i).getD 0
    let snowfall := (daily.snowfall_sum i).getD 0
    some
      { date := daily.time.getD i 0
        temperature := temp_mean
        temperature_min := temp_min
        temperature_max := temp_max
        feels_like := feels_like
        pressure := pressure
        humidity := humidity
        wind_speed := (daily.windspeed_10m_max i).getD 5
        wind_direction := (daily.winddirection_10m_dominant i).getD wdDraw
        weather_condition := get_weather_condition precipitation rain snowfall
        weather_description := get_weather_description precipitation rain snowfall }
  | _, _, _ => none

/-- The whole processing loop of lines 83-153. -/
def processDaily (daily : DailySeries) (wdDraws : ℕ → ℤ) : List DayRec :=
  (List.range daily.time.length).filterMap (fun i => processDay daily (wdDraws i) i)

/-- Outcome of the network call and JSON parse of lines 73-76:
`failure` models any raised transport/parse exception, and `success none`
models a well-formed response whose `daily` member is absent or empty
(`if not data.get('daily')`, line 78). -/
inductive FetchOutcome
  | failure
  | success (daily : Option DailySeries)

/-- Translation of `get_historical_weather_data(latitude, longitude, start_date, end_date)`,
lines 48-158: the except-branch of lines 156-158 calls the generator, the
no-daily branch of lines 78-80 returns the empty list. -/
def get_historical_weather_data (outcome : FetchOutcome) (wdDraws : ℕ → ℤ)
    (latitude : ℚ) (month : ℕ) (start_date end_date : ℕ)
    (synDraws : ℕ → DayDraws) : List DayRec :=
  match outcome with
  | FetchOutcome.failure =>
    generate_sample_weather_data start_date end_date latitude month synDraws
  | FetchOutcome.success none => []
  | FetchOutcome.success (some daily) => processDaily daily wdDraws

/-! ## Relational store and upsert writer

The tables of create_tables.py are modelled as lists of rows.  The
SELECT-by-key / fetchone / UPDATE-by-id / INSERT sequence used by
collect_weather_data.py (lines 619-677 for weather_data, 388-493 for
weather_stats) is modelled by `upsert`: look up the first row with the given
natural key; replace it if found (the UPDATE overwrites every mutable column,
so replacing the whole row is faithful), append otherwise. -/

/-- Replace the first row whose key is `k` by `v`. -/
def updateFirst {Row K : Type} [DecidableEq K] (key : Row → K) :
    List Row → K → Row → List Row
  | [], _, _ => []
  | r :: rs, k, v =>
    if key r = k then v :: rs else r :: updateFirst key rs k v

/-- SELECT-by-key + fetchone, then UPDATE-the-found-row or INSERT. -/
def upsert {Row K : Type} [DecidableEq K] (key : Row → K)
    (st : List Row) (v : Row) : List Row :=
  match st.find? (fun r => decide (key r = key v)) with
  | some _ => updateFirst key st (key v) v
  | none => st ++ [v]

/-- One row of the weather_data table (create_tables.py lines 68-85).
Columns written from `daily_data.get(...)` may be NULL; the other value
columns are always written with non-null values by the sole writer. -/
structure DayRow where
  city_id : ℕ
  date : ℕ
  temperature : ℚ
  feels_like : ℚ
  temperature_min : ℚ
  temperature_max : ℚ
  pressure : Option ℚ
  humidity : Option ℚ
  wind_speed : Option ℚ
  wind_direction : ℤ
  weather_condition : String
  weather_description : String
deriving DecidableEq

/-- The natural key of weather_data: UNIQUE (city_id, date). -/
def dayKey (r : DayRow) : ℕ × ℕ := (r.city_id, r.date)

/-- The row written for one day by main's insert/update of lines 629-677. -/
def dayRowOf (city_id : ℕ) (r : DayRec) : DayRow :=
  { city_id := city_id
    date := r.date
    temperature := r.temperature
    feels_like := r.feels_like
    temperature_min := r.temperature_min
    temperature_max := r.temperature_max
    pressure := (r.pressure).map (fun z => (z : ℚ))
    humidity := (r.humidity).map (fun z => (z : ℚ))
    wind_speed := some r.wind_speed
    wind_direction := r.wind_direction
    weather_condition := r.weather_condition
    weather_description := r.weather_description }

/-- The per-city weather_data write loop of main, lines 617-684. -/
def ingest_weather_data (st : List DayRow) (city_id : ℕ)
    (recs : List DayRec) : List DayRow :=
  recs.foldl (fun s r => upsert dayKey s (dayRowOf city_id r)) st

/-! ## Period aggregator (collect_weather_data.py lines 360-498) -/

/-- SQL AVG over the non-NULL values of a column. -/
def sqlAvg (xs : List ℚ) : Option ℚ :=
  if xs = [] then none else some (xs.sum / (xs.length : ℚ))

/-- SQL MIN over the non-NULL values of a column. -/
def sqlMin (xs : List ℚ) : Option ℚ := xs.min?

/-- SQL MAX over the non-NULL values of a column. -/
def sqlMax (xs : List ℚ) : Option ℚ := xs.max?

/-- The filter `WHERE city_id = %s AND date BETWEEN %s AND %s` (lines 411-413):
SQL BETWEEN is inclusive at both ends. -/
def windowRows (rows : List DayRow) (city_id start_date today : ℕ) : List DayRow :=
  rows.filter (fun r => decide (r.city_id = city_id ∧ start_date ≤ r.date ∧ r.date ≤ today))

/-- The query `SELECT TOP 1 weather_condition ... GROUP BY weather_condition ORDER BY
count DESC` (lines 422-428): some condition of maximal count among the rows;
on ties the engine's incidental order decides, modelled here as keeping the
earlier-found group.  `none` when there are no rows. -/
def dominantCondition (w : List DayRow) : Option String :=
  (w.map (fun r => r.weather_condition)).dedup.foldl
    (fun best c =>
      match best with
      | none => some c
      | some b =>
        if (w.map (fun r => r.weather_condition)).count b <
            (w.map (fun r => r.weather_condition)).count c
        then some c else best)
    none

/-- One fetched row of the weather_stats table (columns of lines 470-476). -/
structure StatVals where
  avg_temperature : Option ℚ
  min_temperature : Option ℚ
  max_temperature : Option ℚ
  avg_humidity : Option ℚ
  min_humidity : Option ℚ
  max_humidity : Option ℚ
  avg_wind_speed : Option ℚ
  min_wind_speed : Option ℚ
  max_wind_speed : Option ℚ
  avg_pressure : Option ℚ
  min_pressure : Option ℚ
  max_pressure : Option ℚ
  dominant_condition : String
deriving DecidableEq

/-- One row of the weather_stats table. -/
structure StatRow where
  city_id : ℕ
  stat_date : ℕ
  period_days : ℕ
  vals : StatVals
deriving DecidableEq

/-- The natural key of weather_stats: UNIQUE (city_id, stat_date, period_days). -/
def statKey (r : StatRow) : ℕ × ℕ × ℕ := (r.city_id, r.stat_date, r.period_days)

/-- The statistics computed for one period (loop body of lines 387-431):
the aggregate SELECT of lines 397-413 over the window
[today - period_days, today], the skip of lines 417-419 when AVG(temperature)
is NULL (in this model: when the window is empty, since the writer never
stores a NULL temperature), and the dominant-condition query of
lines 421-431 with its "Unknown" default. -/
def calcPeriodStat (rows : List DayRow) (city_id today period_days : ℕ) :
    Option StatVals :=
  let w := windowRows rows city_id (today - period_days) today
  match sqlAvg (w.map (fun r => r.temperature)) with
  | none => none
  | some a =>
    some
      { avg_temperature := some a
        min_temperature := sqlMin (w.map (fun r => r.temperature_min))
        max_temperature := sqlMax (w.map (fun r => r.temperature_max))
        avg_humidity := sqlAvg (w.filterMap (fun r => r.humidity))
        min_humidity := sqlMin (w.filterMap (fun r => r.humidity))
        max_humidity := sqlMax (w.filterMap (fun r => r.humidity))
        avg_wind_speed := sqlAvg (w.filterMap (fun r => r.wind_speed))
        min_wind_speed := sqlMin (w.filterMap (fun r => r.wind_speed))
        max_wind_speed := sqlMax (w.filterMap (fun r => r.wind_speed))
        avg_pressure := sqlAvg (w.filterMap (fun r => r.pressure))
        min_pressure := sqlMin (w.filterMap (fun r => r.pressure))
        max_pressure := sqlMax (w.filterMap (fun r => r.pressure))
        dominant_condition := (dominantCondition w).getD "Unknown" }

/-- Translation of `calculate_weather_stats(cursor, city_id)`, lines 360-498: for each
period in [7, 30], compute the window statistics; on an empty window,
continue with the next period; otherwise upsert the stats row keyed by
(city_id, today, period_days). -/
def calculate_weather_stats (rows : List DayRow) (stats : List StatRow)
    (city_id today : ℕ) : List StatRow :=
  [7, 30].foldl
    (fun st p =>
      match calcPeriodStat rows city_id today p with
      | none => st
      | some v => upsert statKey st ⟨city_id, today, p, v⟩)
    stats

/-- The per-location ingest sequence of main (lines 617-692): write every
fetched day record into weather_data, then recompute both period statistics
from the updated store.  (For an empty fetch result main skips the location
before this sequence, line 609-611; the sequence is modelled for the record
lists it actually receives.) -/
def ingestRun (dayStore : List DayRow) (statStore : List StatRow)
    (city_id today : ℕ) (recs : List DayRec) : List DayRow × List StatRow :=
  let d := ingest_weather_data dayStore city_id recs
  (d, calculate_weather_stats d statStore city_id today)

/-! ## Concrete fixtures (used to exhibit concrete instances) -/

/-- A daily series reporting one day with all three temperatures present,
apparent-temperature max missing, humidity bounds present, pressure bounds
missing, wind missing, rain missing and precipitation 3. -/
def exDaily : DailySeries :=
  { time := [100]
    temperature_2m_mean := fun _ => some 20
    temperature_2m_min := fun _ => some 15
    temperature_2m_max := fun _ => some 25
    apparent_temperature_max := fun _ => none
    apparent_temperature_min := fun _ => some 18
    precipitation_sum := fun _ => some 3
    rain_sum := fun _ => none
    snowfall_sum := fun _ => some 0
    windspeed_10m_max := fun _ => none
    winddirection_10m_dominant := fun _ => none
    relative_humidity_2m_max := fun _ => some 81
    relative_humidity_2m_min := fun _ => some 60
    pressure_msl_max := fun _ => none
    pressure_msl_min := fun _ => none }

/-- The record the fetcher builds from `exDaily` with wind-direction draw 7. -/
def exRec : DayRec :=
  ⟨100, 20, 15, 25, 20, none, some (pyInt ((81 + 60) / 2)), 5, 7,
    "Precipitation", "Precipitation"⟩

/-- A stored weather_data row with the given date and condition. -/
def exRow (date : ℕ) (cond : String) : DayRow :=
  ⟨1, date, 0, 0, 0, 0, none, none, none, 0, cond, ""⟩

/-- A window with condition counts Clear: 3, Rain: 5, Snow: 2. -/
def condFixture : List DayRow :=
  [exRow 1 "Clear", exRow 2 "Clear", exRow 3 "Clear",
   exRow 4 "Rain", exRow 5 "Rain", exRow 6 "Rain", exRow 7 "Rain", exRow 8 "Rain",
   exRow 9 "Snow", exRow 10 "Snow"]

/-- A stored weather_data row for city 1 whose three temperature columns all
hold `t`. -/
def tempRow (date : ℕ) (t : ℚ) : DayRow :=
  ⟨1, date, t, t, t, t, none, none, none, 0, "Clear", ""⟩

/-- Three rows with temperatures 10, 20, 30, all inside the 7-day window of
city 1 at today = 30. -/
def tempFixture : List DayRow := [tempRow 25 10, tempRow 26 20, tempRow 27 30]

/-- The statistics computed over `tempFixture`. -/
def tempFixtureStats : StatVals :=
  ⟨some 20, some 10, some 30, none, none, none, none, none, none, none, none,
    none, "Clear"⟩

/-! # Theorems -/

/-! ## Rounding lemmas -/

theorem floor_le_pyRoundInt (q : ℚ) : ⌊q⌋ ≤ pyRoundInt q := by
  unfold pyRoundInt
  split_ifs <;> omega

theorem pyRoundInt_le_floor_add_one (q : ℚ) : pyRoundInt q ≤ ⌊q⌋ + 1 := by
  unfold pyRoundInt
  split_ifs <;> omega

theorem pyRoundInt_mono {a b : ℚ} (hab : a ≤ b) : pyRoundInt a ≤ pyRoundInt b := by
  rcases lt_or_eq_of_le (Int.floor_le_floor hab) with hf | hf
  · calc pyRoundInt a ≤ ⌊a⌋ + 1 := pyRoundInt_le_floor_add_one a
      _ ≤ ⌊b⌋ := by omega
      _ ≤ pyRoundInt b := floor_le_pyRoundInt b
  · have hfa : ((⌊a⌋ : ℤ) : ℚ) = ((⌊b⌋ : ℤ) : ℚ) := by exact_mod_cast hf
    have hr : a - ((⌊a⌋ : ℤ) : ℚ) ≤ b - ((⌊b⌋ : ℤ) : ℚ) := by rw [← hfa]; linarith
    unfold pyRoundInt
    split_ifs <;> first | omega | linarith

theorem pyRoundInt_intCast (m : ℤ) : pyRoundInt (m : ℚ) = m := by
  unfold pyRoundInt
  rw [Int.floor_intCast]
  norm_num

theorem pyRoundInt_cast_le (q : ℚ) : (pyRoundInt q : ℚ) ≤ q + 1/2 := by
  have hfl := Int.floor_le q
  unfold pyRoundInt
  split_ifs <;> push_cast <;> linarith

theorem pyRound1_mono {a b : ℚ} (hab : a ≤ b) : pyRound1 a ≤ pyRound1 b := by
  unfold pyRound1
  have h := pyRoundInt_mono (mul_le_mul_of_nonneg_right hab (by norm_num) : a * 10 ≤ b * 10)
  have h' : (pyRoundInt (a * 10) : ℚ) ≤ (pyRoundInt (b * 10) : ℚ) := by exact_mod_cast h
  linarith

theorem pyRound1_tenths (m : ℤ) : pyRound1 ((m : ℚ) / 10) = (m : ℚ) / 10 := by
  unfold pyRound1
  rw [div_mul_cancel₀ _ (by norm_num : (10:ℚ) ≠ 0), pyRoundInt_intCast]

theorem pyRound1_le_tenths {x : ℚ} {m : ℤ} (h : x ≤ (m : ℚ) / 10) :
    pyRound1 x ≤ (m : ℚ) / 10 := by
  calc pyRound1 x ≤ pyRound1 ((m : ℚ) / 10) := pyRound1_mono h
    _ = (m : ℚ) / 10 := pyRound1_tenths m

theorem tenths_le_pyRound1 {x : ℚ} {m : ℤ} (h : (m : ℚ) / 10 ≤ x) :
    (m : ℚ) / 10 ≤ pyRound1 x := by
  calc (m : ℚ) / 10 = pyRound1 ((m : ℚ) / 10) := (pyRound1_tenths m).symm
    _ ≤ pyRound1 x := pyRound1_mono h

theorem lt_of_pyRound1_lt {x c : ℚ} {m : ℤ} (hm : c = (m : ℚ) / 10)
    (h : c < pyRound1 x) : c < x := by
  have h1 : (m : ℚ) < (pyRoundInt (x * 10) : ℚ) := by
    have : (m : ℚ) / 10 < (pyRoundInt (x * 10) : ℚ) / 10 := hm ▸ h
    linarith
  have h2 : m + 1 ≤ pyRoundInt (x * 10) := by exact_mod_cast h1
  have h3 : (pyRoundInt (x * 10) : ℚ) ≤ x * 10 + 1/2 := pyRoundInt_cast_le (x * 10)
  have h4 : ((m : ℚ) + 1) ≤ (pyRoundInt (x * 10) : ℚ) := by exact_mod_cast h2
  rw [hm]
  linarith

/-! ## Generator helper lemmas -/

theorem genDay_date (date : ℕ) (t : ℚ) (d : DayDraws) : (genDay date t d).date = date := rfl

theorem genDay_temperature (date : ℕ) (t : ℚ) (d : DayDraws) :
    (genDay date t d).temperature = pyRound1 t := rfl

theorem genDay_temperature_min (date : ℕ) (t : ℚ) (d : DayDraws) :
    (genDay date t d).temperature_min = pyRound1 (t - d.dMin) := rfl

theorem genDay_temperature_max (date : ℕ) (t : ℚ) (d : DayDraws) :
    (genDay date t d).temperature_max = pyRound1 (t + d.dMax) := rfl

theorem genDay_condition (date : ℕ) (t : ℚ) (d : DayDraws) :
    (genDay date t d).weather_condition =
      pyChoice weather_conditions
        (if t - d.dMin < 0 then [(2:ℚ)/10, 2/10, 1/10, 4/10, 1/10]
         else if t > 30 then [(3:ℚ)/10, 3/10, 2/10, 0, 2/10]
         else [(3:ℚ)/10, 3/10, 2/10, 1/10, 1/10]) d.dCond := rfl

theorem clamp_mem (raw : ℚ) :
    -30 ≤ max (-30) (min 50 raw) ∧ max (-30) (min 50 raw) ≤ 50 :=
  ⟨le_max_left _ _, max_le (by norm_num) (min_le_left _ _)⟩

theorem clamp_near {p raw : ℚ} (hp1 : -30 ≤ p) (hp2 : p ≤ 50)
    (h1 : p - 3 ≤ raw) (h2 : raw ≤ p + 3) :
    p - 3 ≤ max (-30) (min 50 raw) ∧ max (-30) (min 50 raw) ≤ p + 3 :=
  ⟨(le_min (by linarith) h1).trans (le_max_right _ _),
    max_le (by linarith) ((min_le_right 50 raw).trans h2)⟩

theorem tempOk_round_clamp (raw : ℚ) : TempOk (pyRound1 (max (-30) (min 50 raw))) := by
  obtain ⟨h1, h2⟩ := clamp_mem raw
  refine ⟨?_, ?_, ⟨pyRoundInt (max (-30) (min 50 raw) * 10), rfl⟩⟩
  · have key : ((-300 : ℤ) : ℚ) / 10 ≤ max (-30) (min 50 raw) := by push_cast; linarith
    have h := tenths_le_pyRound1 key
    push_cast at h
    linarith
  · have key : max (-30) (min 50 raw) ≤ ((500 : ℤ) : ℚ) / 10 := by push_cast; linarith
    have h := pyRound1_le_tenths key
    push_cast at h
    linarith

theorem round_clamp_step {p raw : ℚ} (hp : TempOk p)
    (h1 : p - 3 ≤ raw) (h2 : raw ≤ p + 3) :
    p - 3 ≤ pyRound1 (max (-30) (min 50 raw)) ∧
      pyRound1 (max (-30) (min 50 raw)) ≤ p + 3 := by
  obtain ⟨hp1, hp2, m, hm⟩ := hp
  obtain ⟨hc1, hc2⟩ := clamp_near hp1 hp2 h1 h2
  constructor
  · have key : ((m - 30 : ℤ) : ℚ) / 10 ≤ max (-30) (min 50 raw) := by
      push_cast
      linarith
    have h := tenths_le_pyRound1 key
    push_cast at h
    linarith
  · have key : max (-30) (min 50 raw) ≤ ((m + 30 : ℤ) : ℚ) / 10 := by
      push_cast
      linarith
    have h := pyRound1_le_tenths key
    push_cast at h
    linarith

theorem validDraw_core {b : Bool} {d : DayDraws} (h : ValidDraw b d) :
    1 ≤ d.dMin ∧ d.dMin ≤ 5 ∧ 1 ≤ d.dMax ∧ d.dMax ≤ 5 ∧
      0 ≤ d.dCond ∧ d.dCond < 1 := by
  obtain ⟨-, h2, h3, -, -, -, -, -, h9⟩ := h
  exact ⟨h2.1, h2.2, h3.1, h3.2, h9.1, h9.2⟩

theorem genLoop_mem_shape (lat : ℚ) (month : ℕ) (draws : ℕ → DayDraws) :
    ∀ fuel cur (prev : Option ℚ) idx r,
      r ∈ genLoop lat month draws fuel cur prev idx →
      ∃ c t i, r = genDay c t (draws i) := by
  intro fuel
  induction fuel with
  | zero => intro cur prev idx r hr; simp [genLoop] at hr
  | succ n ih =>
    intro cur prev idx r hr
    simp only [genLoop] at hr
    rcases List.mem_cons.mp hr with h | h
    · exact ⟨cur, _, idx, h⟩
    · exact ih _ _ _ r h

theorem genLoop_map_date (lat : ℚ) (month : ℕ) (draws : ℕ → DayDraws) :
    ∀ fuel cur (prev : Option ℚ) idx,
      (genLoop lat month draws fuel cur prev idx).map (fun r => r.date) =
        List.range' cur fuel := by
  intro fuel
  induction fuel with
  | zero => intro cur prev idx; simp [genLoop]
  | succ n ih =>
    intro cur prev idx
    simp only [genLoop, List.map_cons, genDay_date, ih, List.range'_succ]

theorem genLoop_invariant (lat : ℚ) (month : ℕ) (draws : ℕ → DayDraws)
    (hd : ∀ i, 1 ≤ i → -3 ≤ (draws i).dTemp ∧ (draws i).dTemp ≤ 3) :
    ∀ fuel idx cur (prev : Option ℚ),
      (∀ p, prev = some p → TempOk p ∧ 1 ≤ idx) →
      (∀ r ∈ genLoop lat month draws fuel cur prev idx,
          -30 ≤ r.temperature ∧ r.temperature ≤ 50) ∧
      List.Chain' (fun a b => |b.temperature - a.temperature| ≤ 3)
        (genLoop lat month draws fuel cur prev idx) ∧
      (∀ p r, prev = some p →
        (genLoop lat month draws fuel cur prev idx).head? = some r →
        |r.temperature - p| ≤ 3) := by
  intro fuel
  induction fuel with
  | zero =>
    intro idx cur prev _
    refine ⟨by simp [genLoop], by simp [genLoop], by simp [genLoop]⟩
  | succ n ih =>
    intro idx cur prev hprev
    rcases prev with _ | p
    · -- first day: no constraint on the base, the clamp bounds everything
      simp only [genLoop]
      have hok := tempOk_round_clamp (adjustedBaseTemp lat month + (draws idx).dTemp)
      obtain ⟨hb1, hb2, -⟩ := hok
      have hih := ih (idx + 1) (cur + 1)
        (some (genDay cur
          (max (-30) (min 50 (adjustedBaseTemp lat month + (draws idx).dTemp)))
          (draws idx)).temperature)
        (by
          intro q hq
          rw [Option.some_inj] at hq
          subst hq
          exact ⟨tempOk_round_clamp _, by omega⟩)
      refine ⟨?_, ?_, ?_⟩
      · intro r hr
        rcases List.mem_cons.mp hr with h | h
        · subst h; exact ⟨hb1, hb2⟩
        · exact hih.1 r h
      · refine List.chain'_cons'.mpr ⟨?_, hih.2.1⟩
        intro b hb
        exact hih.2.2 _ b rfl hb
      · intro q r hq
        exact absurd hq (by simp)
    · -- subsequent day: previous stored temperature p, noise in [-3, 3]
      obtain ⟨hpok, hidx⟩ := hprev p rfl
      obtain ⟨hn1, hn2⟩ := hd idx hidx
      have hraw1 : p - 3 ≤ p + (draws idx).dTemp := by linarith
      have hraw2 : p + (draws idx).dTemp ≤ p + 3 := by linarith
      have hstep := round_clamp_step hpok hraw1 hraw2
      have hok := tempOk_round_clamp (p + (draws idx).dTemp)
      obtain ⟨hb1, hb2, -⟩ := hok
      simp only [genLoop]
      have hih := ih (idx + 1) (cur + 1)
        (some (genDay cur (max (-30) (min 50 (p + (draws idx).dTemp)))
          (draws idx)).temperature)
        (by
          intro q hq
          rw [Option.some_inj] at hq
          subst hq
          exact ⟨tempOk_round_clamp _, by omega⟩)
      refine ⟨?_, ?_, ?_⟩
      · intro r hr
        rcases List.mem_cons.mp hr with h | h
        · subst h; exact ⟨hb1, hb2⟩
        · exact hih.1 r h
      · refine List.chain'_cons'.mpr ⟨?_, hih.2.1⟩
        intro b hb
        exact hih.2.2 _ b rfl hb
      · intro q r hq hr
        rw [Option.some_inj] at hq
        subst hq
        rw [List.head?_cons, Option.some_inj] at hr
        subst hr
        rw [genDay_temperature]
        rw [abs_le]
        exact ⟨by linarith [hstep.1], by linarith [hstep.2]⟩

theorem genLoop_head_temp (lat : ℚ) (month : ℕ) (draws : ℕ → DayDraws) :
    ∀ fuel cur (p : ℚ) idx r,
      (genLoop lat month draws fuel cur (some p) idx)[0]? = some r →
      r.temperature = pyRound1 (max (-30) (min 50 (p + (draws idx).dTemp))) := by
  intro fuel cur p idx r hr
  cases fuel with
  | zero => simp [genLoop] at hr
  | succ n =>
    simp only [genLoop, List.getElem?_cons_zero, Option.some_inj] at hr
    subst hr
    rfl

theorem genLoop_succ_temp (lat : ℚ) (month : ℕ) (draws : ℕ → DayDraws) :
    ∀ fuel cur (prev : Option ℚ) idx j r1 r2,
      (genLoop lat month draws fuel cur prev idx)[j]? = some r1 →
      (genLoop lat month draws fuel cur prev idx)[j + 1]? = some r2 →
      r2.temperature =
        pyRound1 (max (-30) (min 50 (r1.temperature + (draws (idx + j + 1)).dTemp))) := by
  intro fuel
  induction fuel with
  | zero => intro cur prev idx j r1 r2 h1 _; simp [genLoop] at h1
  | succ n ih =>
    intro cur prev idx j r1 r2 h1 h2
    cases j with
    | zero =>
      simp only [genLoop, List.getElem?_cons_zero, Option.some_inj] at h1
      simp only [genLoop, List.getElem?_cons_succ] at h2
      have key := genLoop_head_temp lat month draws n (cur + 1) _ (idx + 1) r2 h2
      rw [key, h1]
    | succ k =>
      simp only [genLoop, List.getElem?_cons_succ] at h1 h2
      have e : idx + 1 + k + 1 = idx + (k + 1) + 1 := by omega
      rw [← e]
      exact ih (cur + 1) _ (idx + 1) k r1 r2 h1 h2

/-! ## Claim C2 -/

/-- Claim C2: weather condition and description are pure first-match-wins
cascades of (precipitation, rain, snowfall), with the four quoted example
classifications. -/
theorem spec_C2 (p r s : ℚ) :
    (get_weather_condition p r s =
      if s > 0 then "Snow"
      else if r > 10 then "Heavy Rain"
      else if r > 0 then "Rain"
      else if p > 0 then "Precipitation"
      else "Clear") ∧
    (get_weather_description p r s =
      if s > 5 then "Heavy snow"
      else if s > 0 then "Light snow"
      else if r > 10 then "Heavy rain"
      else if r > 2 then "Moderate rain"
      else if r > 0 then "Light rain"
      else if p > 0 then "Precipitation"
      else "Clear sky") ∧
    (get_weather_condition 0 0 0 = "Clear" ∧ get_weather_description 0 0 0 = "Clear sky") ∧
    (get_weather_condition 5 5 0 = "Rain" ∧ get_weather_description 5 5 0 = "Moderate rain") ∧
    (get_weather_condition 0 0 3 = "Snow" ∧ get_weather_description 0 0 3 = "Light snow") ∧
    (get_weather_condition 20 15 0 = "Heavy Rain" ∧
      get_weather_description 20 15 0 = "Heavy rain") := by
  refine ⟨?_, ?_, by constructor <;> decide, by constructor <;> decide,
    by constructor <;> decide, by constructor <;> decide⟩
  · unfold get_weather_condition
    split_ifs <;> first | rfl | linarith
  · unfold get_weather_description
    split_ifs <;> first | rfl | linarith

/-! ## Claim C10 -/

/-- Claim C10: latitude 0 fails the `latitude > 0` hemisphere test, so the
equator uses the southern-hemisphere season table: an invocation month of
December, January or February yields summer with base temperature 30 (and the
latitude adjustment subtracts 0), whereas the northern table would have given
winter with base 5. -/
theorem spec_C10 :
    isNorthernOf 0 = false ∧
    seasonOf (isNorthernOf 0) 12 = Season.summer ∧
    seasonOf (isNorthernOf 0) 1 = Season.summer ∧
    seasonOf (isNorthernOf 0) 2 = Season.summer ∧
    baseTempOf (isNorthernOf 0) Season.summer = 30 ∧
    adjustedBaseTemp 0 12 = 30 ∧ adjustedBaseTemp 0 1 = 30 ∧ adjustedBaseTemp 0 2 = 30 ∧
    seasonOf true 12 = Season.winter ∧ baseTempOf true Season.winter = 5 := by
  refine ⟨by decide, by decide, by decide, by decide, by decide, ?_, ?_, ?_, by decide, by decide⟩
  all_goals norm_num [adjustedBaseTemp, isNorthernOf, seasonOf, baseTempOf]

/-! ## Claim C3 -/

/-- Claim C3: for start ≤ end and any latitude (and any draw of the random
values), the generator emits exactly one record per calendar date of
[start, end] in increasing order, and each record has
temperature_min ≤ temperature ≤ temperature_max. -/
theorem spec_C3 (start_date end_date : ℕ) (latitude : ℚ) (month : ℕ)
    (draws : ℕ → DayDraws) (hse : start_date ≤ end_date) (hv : ValidDraws draws) :
    ((generate_sample_weather_data start_date end_date latitude month draws).map
        (fun r => r.date) = List.range' start_date (end_date + 1 - start_date)) ∧
    (generate_sample_weather_data start_date end_date latitude month draws).length =
      end_date + 1 - start_date ∧
    generate_sample_weather_data start_date end_date latitude month draws ≠ [] ∧
    (∀ r ∈ generate_sample_weather_data start_date end_date latitude month draws,
        r.temperature_min ≤ r.temperature ∧ r.temperature ≤ r.temperature_max) := by
  have hmap := genLoop_map_date latitude month draws (end_date + 1 - start_date)
    start_date none 0
  have hlen : (generate_sample_weather_data start_date end_date latitude month draws).length
      = end_date + 1 - start_date := by
    have h := congrArg List.length hmap
    simpa [generate_sample_weather_data] using h
  refine ⟨by simpa [generate_sample_weather_data] using hmap, hlen, ?_, ?_⟩
  · intro h
    rw [h] at hlen
    simp only [List.length_nil] at hlen
    omega
  · intro r hr
    have hr' : r ∈ genLoop latitude month draws (end_date + 1 - start_date)
        start_date none 0 := hr
    obtain ⟨c, t, i, rfl⟩ := genLoop_mem_shape latitude month draws _ _ _ _ r hr'
    have hc := validDraw_core (hv i)
    rw [genDay_temperature, genDay_temperature_min, genDay_temperature_max]
    exact ⟨pyRound1_mono (by linarith [hc.1]), pyRound1_mono (by linarith [hc.2.2.1])⟩

/-- Concrete instance of C3: a three-day run over [0, 2]. -/
theorem spec_C3_witness :
    (generate_sample_weather_data 0 2 0 6 calmDraws).map (fun r => r.date) =
        List.range' 0 (2 + 1 - 0) ∧
    (generate_sample_weather_data 0 2 0 6 calmDraws).length = 2 + 1 - 0 := by
  have h := spec_C3 0 2 0 6 calmDraws (by norm_num)
    (by intro i; by_cases hi : i = 0 <;> simp [calmDraws, calmDraw, ValidDraw, hi])
  exact ⟨h.1, h.2.1⟩

/-! ## Claim C8 -/

/-- Claim C8: in every generated series the first day's stored temperature is
the latitude-adjusted seasonal base plus the first noise draw (clamped and
rounded), each later day's stored temperature is the previous stored
temperature plus that day's noise draw (clamped and rounded), every stored
temperature lies in [-30, 50], and consecutive temperatures differ by at
most 3 — for every draw of the random values within their ranges. -/
theorem spec_C8 (start_date end_date : ℕ) (latitude : ℚ) (month : ℕ)
    (draws : ℕ → DayDraws) (hv : ValidDraws draws) :
    (∀ r ∈ generate_sample_weather_data start_date end_date latitude month draws,
        -30 ≤ r.temperature ∧ r.temperature ≤ 50) ∧
    List.Chain' (fun a b => |b.temperature - a.temperature| ≤ 3)
      (generate_sample_weather_data start_date end_date latitude month draws) ∧
    (∀ r, (generate_sample_weather_data start_date end_date latitude month draws)[0]? =
        some r →
      r.temperature =
        pyRound1 (max (-30) (min 50 (adjustedBaseTemp latitude month + (draws 0).dTemp)))) ∧
    (∀ j r1 r2,
      (generate_sample_weather_data start_date end_date latitude month draws)[j]? = some r1 →
      (generate_sample_weather_data start_date end_date latitude month draws)[j + 1]? =
        some r2 →
      r2.temperature =
        pyRound1 (max (-30) (min 50 (r1.temperature + (draws (j + 1)).dTemp)))) := by
  have hd : ∀ i, 1 ≤ i → -3 ≤ (draws i).dTemp ∧ (draws i).dTemp ≤ 3 := by
    intro i hi
    have h := hv i
    have hb : decide (i = 0) = false := by simp; omega
    rw [hb] at h
    simpa using h.1
  have hinv := genLoop_invariant latitude month draws hd (end_date + 1 - start_date) 0
    start_date none (by intro p hp; exact absurd hp (by simp))
  refine ⟨hinv.1, hinv.2.1, ?_, ?_⟩
  · show ∀ r, (genLoop latitude month draws (end_date + 1 - start_date)
        start_date none 0)[0]? = some r → _
    cases h : end_date + 1 - start_date with
    | zero => intro r hr; simp [genLoop] at hr
    | succ n =>
      intro r hr
      simp only [genLoop, List.getElem?_cons_zero, Option.some_inj] at hr
      subst hr
      rfl
  · intro j r1 r2 h1 h2
    have h := genLoop_succ_temp latitude month draws (end_date + 1 - start_date)
      start_date none 0 j r1 r2 h1 h2
    simpa using h

/-- Concrete instance of C8: the consecutive-difference bound on a two-day run. -/
theorem spec_C8_witness :
    List.Chain' (fun a b => |b.temperature - a.temperature| ≤ 3)
      (generate_sample_weather_data 0 1 0 6 calmDraws) :=
  (spec_C8 0 1 0 6 calmDraws
    (by intro i; by_cases hi : i = 0 <;> simp [calmDraws, calmDraw, ValidDraw, hi])).2.1

/-! ## Claim C9 -/

theorem pyChoice_hot_ne_snow (u : ℚ) :
    pyChoice weather_conditions [(3:ℚ)/10, 3/10, 2/10, 0, 2/10] u ≠ "Snow" := by
  unfold pyChoice weather_conditions
  norm_num [List.scanl, List.countP, List.countP.go]
  by_cases h3 : (3:ℚ)/10 ≤ u <;> by_cases h6 : (3:ℚ)/5 ≤ u <;>
    by_cases h8 : (4:ℚ)/5 ≤ u <;> simp [h3, h6, h8] <;> linarith

theorem genDay_hot_ne_snow {date : ℕ} {t : ℚ} {d : DayDraws} (hMin : d.dMin ≤ 5)
    (ht : 30 < pyRound1 t) : (genDay date t d).weather_condition ≠ "Snow" := by
  have ht' : (30:ℚ) < t := lt_of_pyRound1_lt (m := 300) (by norm_num) ht
  rw [genDay_condition, if_neg (not_lt.mpr (by linarith : (0:ℚ) ≤ t - d.dMin)),
    if_pos (by linarith : t > 30)]
  exact pyChoice_hot_ne_snow d.dCond

/-- Claim C9: a generated record whose stored mean temperature exceeds 30°C
never has weather_condition "Snow": the below-freezing branch is unreachable
(temperature_min = mean - uniform[1,5] stays positive) and the hot-weather
weight vector gives snow weight 0, for every draw of the random values. -/
theorem spec_C9 (start_date end_date : ℕ) (latitude : ℚ) (month : ℕ)
    (draws : ℕ → DayDraws) (hv : ValidDraws draws) :
    ∀ r ∈ generate_sample_weather_data start_date end_date latitude month draws,
      30 < r.temperature → r.weather_condition ≠ "Snow" := by
  intro r hr hT
  have hr' : r ∈ genLoop latitude month draws (end_date + 1 - start_date)
      start_date none 0 := hr
  obtain ⟨c, t, i, rfl⟩ := genLoop_mem_shape latitude month draws _ _ _ _ r hr'
  have hc := validDraw_core (hv i)
  exact genDay_hot_ne_snow hc.2.1 (by rwa [genDay_temperature] at hT)

/-- Concrete instance of C9: a one-day December run at the equator whose
first-day noise of +5 produces a 35°C record, which is not "Snow". -/
theorem spec_C9_witness :
    (genDay 0 35 ⟨5, 1, 1, 0, 0, 0, 0, 0, 0, 0⟩).weather_condition ≠ "Snow" := by
  have hv : ValidDraws hotFirstDraws := by
    intro i
    by_cases hi : i = 0 <;> simp [hotFirstDraws, calmDraw, ValidDraw, hi]
  have hmem : genDay 0 35 ⟨5, 1, 1, 0, 0, 0, 0, 0, 0, 0⟩ ∈
      generate_sample_weather_data 0 0 0 12 hotFirstDraws := by
    show genDay 0 35 ⟨5, 1, 1, 0, 0, 0, 0, 0, 0, 0⟩ ∈
      genLoop 0 12 hotFirstDraws (0 + 1 - 0) 0 none 0
    norm_num [genLoop, hotFirstDraws, adjustedBaseTemp, isNorthernOf, seasonOf, baseTempOf]
  have hT : (30:ℚ) < (genDay 0 35 ⟨5, 1, 1, 0, 0, 0, 0, 0, 0, 0⟩).temperature := by
    rw [genDay_temperature]
    have h := pyRound1_tenths 350
    norm_num at h
    rw [h]
    norm_num
  exact spec_C9 0 0 0 12 hotFirstDraws hv _ hmem hT

/-! ## Claim C5 -/

/-- Claim C5: a reported day is kept iff mean, min and max temperature are
all present; a kept day gets feels_like from the apparent-temperature
average (falling back to the mean), integer-averaged humidity and pressure
(absent unless both bounds are present), wind_speed defaulting to 5.0,
wind_direction defaulting to the random draw in [0, 359], and missing
precipitation, rain and snowfall treated as 0 in the condition and the
description. -/
theorem spec_C5 (daily : DailySeries) (w : ℤ) (i : ℕ) (hw : 0 ≤ w ∧ w ≤ 359) :
    ((processDay daily w i).isSome ↔
      ((daily.temperature_2m_mean i).isSome ∧ (daily.temperature_2m_min i).isSome ∧
        (daily.temperature_2m_max i).isSome)) ∧
    (∀ r, processDay daily w i = some r →
      (daily.temperature_2m_mean i = some r.temperature ∧
        daily.temperature_2m_min i = some r.temperature_min ∧
        daily.temperature_2m_max i = some r.temperature_max) ∧
      r.feels_like =
        (match daily.apparent_temperature_max i, daily.apparent_temperature_min i with
         | some amax, some amin => (amax + amin) / 2
         | _, _ => r.temperature) ∧
      r.humidity =
        (match daily.relative_humidity_2m_max i, daily.relative_humidity_2m_min i with
         | some hmax, some hmin => some (pyInt ((hmax + hmin) / 2))
         | _, _ => none) ∧
      r.pressure =
        (match daily.pressure_msl_max i, daily.pressure_msl_min i with
         | some pmax, some pmin => some (pyInt ((pmax + pmin) / 2))
         | _, _ => none) ∧
      r.wind_speed = (daily.windspeed_10m_max i).getD 5 ∧
      r.wind_direction = (daily.winddirection_10m_dominant i).getD w ∧
      (daily.winddirection_10m_dominant i = none →
        0 ≤ r.wind_direction ∧ r.wind_direction ≤ 359) ∧
      r.weather_condition = get_weather_condition ((daily.precipitation_sum i).getD 0)
        ((daily.rain_sum i).getD 0) ((daily.snowfall_sum i).getD 0) ∧
      r.weather_description = get_weather_description ((daily.precipitation_sum i).getD 0)
        ((daily.rain_sum i).getD 0) ((daily.snowfall_sum i).getD 0)) := by
  rcases hm : daily.temperature_2m_mean i with _ | tm
  · simp [processDay, hm]
  rcases hn : daily.temperature_2m_min i with _ | tn
  · simp [processDay, hm, hn]
  rcases hx : daily.temperature_2m_max i with _ | tx
  · simp [processDay, hm, hn, hx]
  constructor
  · simp [processDay, hm, hn, hx]
  · intro r hr
    simp only [processDay, hm, hn, hx, Option.some_inj] at hr
    subst hr
    refine ⟨⟨rfl, rfl, rfl⟩, rfl, rfl, rfl, rfl, rfl, ?_, rfl, rfl⟩
    intro hz
    show 0 ≤ (daily.winddirection_10m_dominant i).getD w ∧
      (daily.winddirection_10m_dominant i).getD w ≤ 359
    rw [hz]
    simpa using hw

/-- Concrete instance of C5: processing `exDaily` with draw 7 keeps the day
and applies the documented fallbacks. -/
theorem spec_C5_witness :
    (processDay exDaily 7 0).isSome ∧
    (0:ℤ) ≤ exRec.wind_direction ∧ exRec.wind_direction ≤ 359 := by
  have h := spec_C5 exDaily 7 0 (by norm_num)
  refine ⟨h.1.mpr ⟨rfl, rfl, rfl⟩, ?_⟩
  exact (h.2 exRec (by rfl)).2.2.2.2.2.2.1 rfl

/-! ## Claim C1 -/

/-- Counterexample to C1 as stated: a successful response with no daily
series on the valid two-day range [0, 1] yields the empty list, not the
(two-record, non-empty) synthetic series the claim requires. -/
theorem spec_C1_counterexample :
    get_historical_weather_data (FetchOutcome.success none) (fun _ => 0) 0 6 0 1 calmDraws
      = [] ∧
    (generate_sample_weather_data 0 1 0 6 calmDraws).length = 1 + 1 - 0 ∧
    get_historical_weather_data (FetchOutcome.success none) (fun _ => 0) 0 6 0 1 calmDraws
      ≠ generate_sample_weather_data 0 1 0 6 calmDraws := by
  refine ⟨rfl, rfl, ?_⟩
  intro h
  have h0 : (generate_sample_weather_data 0 1 0 6 calmDraws).length = 0 := by
    rw [← h]
    rfl
  have h2 : (generate_sample_weather_data 0 1 0 6 calmDraws).length = 2 := rfl
  omega

/-- Claim C1 (amended): on a transport/parse failure the fetcher returns the
synthetic generator's output for the full requested range — non-empty, one
record per calendar date of [start, end] — while a successful response with
no daily series yields the empty list. -/
theorem spec_C1 (latitude : ℚ) (month : ℕ) (start_date end_date : ℕ)
    (wdDraws : ℕ → ℤ) (synDraws : ℕ → DayDraws) (hse : start_date ≤ end_date) :
    get_historical_weather_data FetchOutcome.failure wdDraws latitude month
        start_date end_date synDraws =
      generate_sample_weather_data start_date end_date latitude month synDraws ∧
    (get_historical_weather_data FetchOutcome.failure wdDraws latitude month
        start_date end_date synDraws).map (fun r => r.date) =
      List.range' start_date (end_date + 1 - start_date) ∧
    (get_historical_weather_data FetchOutcome.failure wdDraws latitude month
        start_date end_date synDraws).length = end_date + 1 - start_date ∧
    get_historical_weather_data FetchOutcome.failure wdDraws latitude month
        start_date end_date synDraws ≠ [] ∧
    get_historical_weather_data (FetchOutcome.success none) wdDraws latitude month
        start_date end_date synDraws = [] := by
  have hmap := genLoop_map_date latitude month synDraws (end_date + 1 - start_date)
    start_date none 0
  have hlen : (get_historical_weather_data FetchOutcome.failure wdDraws latitude month
      start_date end_date synDraws).length = end_date + 1 - start_date := by
    have h := congrArg List.length hmap
    simpa [get_historical_weather_data, generate_sample_weather_data] using h
  refine ⟨rfl, ?_, hlen, ?_, rfl⟩
  · simpa [get_historical_weather_data, generate_sample_weather_data] using hmap
  · intro h
    rw [h] at hlen
    simp only [List.length_nil] at hlen
    omega

/-- Concrete instance of the amended C1 on the two-day range [0, 1]. -/
theorem spec_C1_witness :
    (get_historical_weather_data FetchOutcome.failure (fun _ => 0) 0 6 0 1 calmDraws).length
      = 1 + 1 - 0 ∧
    get_historical_weather_data (FetchOutcome.success none) (fun _ => 0) 0 6 0 1 calmDraws
      = [] := by
  have h := spec_C1 0 6 0 1 (fun _ => 0) calmDraws (by norm_num)
  exact ⟨h.2.2.1, h.2.2.2.2⟩

/-! ## Claim C6 -/

/-- Claim C6: each period statistic aggregates exactly the rows of the
location inside [today - period_days, today]: mean of temperature, min of
temperature_min, max of temperature_max, and mean/min/max of humidity,
wind_speed and pressure over their non-NULL values; an empty window emits no
statistic and the next period is still attempted; and the 3-row fixture with
temperatures 10, 20, 30 yields avg 20, min 10, max 30. -/
theorem spec_C6 (rows : List DayRow) (c today p : ℕ) :
    (calcPeriodStat rows c today p = none ↔ windowRows rows c (today - p) today = []) ∧
    (∀ v, calcPeriodStat rows c today p = some v →
      v.avg_temperature =
        sqlAvg ((windowRows rows c (today - p) today).map (fun r => r.temperature)) ∧
      v.min_temperature =
        sqlMin ((windowRows rows c (today - p) today).map (fun r => r.temperature_min)) ∧
      v.max_temperature =
        sqlMax ((windowRows rows c (today - p) today).map (fun r => r.temperature_max)) ∧
      v.avg_humidity =
        sqlAvg ((windowRows rows c (today - p) today).filterMap (fun r => r.humidity)) ∧
      v.min_humidity =
        sqlMin ((windowRows rows c (today - p) today).filterMap (fun r => r.humidity)) ∧
      v.max_humidity =
        sqlMax ((windowRows rows c (today - p) today).filterMap (fun r => r.humidity)) ∧
      v.avg_wind_speed =
        sqlAvg ((windowRows rows c (today - p) today).filterMap (fun r => r.wind_speed)) ∧
      v.min_wind_speed =
        sqlMin ((windowRows rows c (today - p) today).filterMap (fun r => r.wind_speed)) ∧
      v.max_wind_speed =
        sqlMax ((windowRows rows c (today - p) today).filterMap (fun r => r.wind_speed)) ∧
      v.avg_pressure =
        sqlAvg ((windowRows rows c (today - p) today).filterMap (fun r => r.pressure)) ∧
      v.min_pressure =
        sqlMin ((windowRows rows c (today - p) today).filterMap (fun r => r.pressure)) ∧
      v.max_pressure =
        sqlMax ((windowRows rows c (today - p) today).filterMap (fun r => r.pressure)) ∧
      v.dominant_condition =
        (dominantCondition (windowRows rows c (today - p) today)).getD "Unknown") ∧
    (∀ stats : List StatRow, calcPeriodStat rows c today 7 = none →
      calculate_weather_stats rows stats c today =
        (match calcPeriodStat rows c today 30 with
         | none => stats
         | some v => upsert statKey stats ⟨c, today, 30, v⟩)) ∧
    (calcPeriodStat tempFixture 1 30 7 = some tempFixtureStats ∧
      tempFixtureStats.avg_temperature = some 20 ∧
      tempFixtureStats.min_temperature = some 10 ∧
      tempFixtureStats.max_temperature = some 30) := by
  refine ⟨?_, ?_, ?_, ?_⟩
  · by_cases hw : windowRows rows c (today - p) today = []
    · simp [calcPeriodStat, sqlAvg, hw]
    · have hmap : (windowRows rows c (today - p) today).map (fun r => r.temperature) ≠ [] := by
        simpa using hw
      simp [calcPeriodStat, sqlAvg, hmap, hw]
  · intro v hv
    simp only [calcPeriodStat] at hv
    rcases h : sqlAvg ((windowRows rows c (today - p) today).map (fun r => r.temperature))
      with _ | a
    · rw [h] at hv
      exact absurd hv (by simp)
    · rw [h] at hv
      simp only [Option.some_inj] at hv
      subst hv
      exact ⟨h.symm, rfl, rfl, rfl, rfl, rfl, rfl, rfl, rfl, rfl, rfl, rfl, rfl⟩
  · intro stats h7
    simp [calculate_weather_stats, h7]
  · refine ⟨?_, rfl, rfl, rfl⟩
    norm_num [calcPeriodStat, windowRows, tempRow, tempFixture, sqlAvg, sqlMin, sqlMax,
      dominantCondition, tempFixtureStats, List.filter, List.dedup, List.count]
    decide

/-- Concrete instance of C6: applying the aggregation characterisation to the
3-row fixture window. -/
theorem spec_C6_witness :
    tempFixtureStats.avg_temperature =
      sqlAvg ((windowRows tempFixture 1 (30 - 7) 30).map (fun r => r.temperature)) ∧
    tempFixtureStats.min_temperature =
      sqlMin ((windowRows tempFixture 1 (30 - 7) 30).map (fun r => r.temperature_min)) ∧
    tempFixtureStats.max_temperature =
      sqlMax ((windowRows tempFixture 1 (30 - 7) 30).map (fun r => r.temperature_max)) := by
  have h := (spec_C6 tempFixture 1 30 7).2.1 tempFixtureStats
    (by
      norm_num [calcPeriodStat, windowRows, tempRow, tempFixture, sqlAvg, sqlMin, sqlMax,
        dominantCondition, tempFixtureStats, List.filter, List.dedup, List.count]
      decide)
  exact ⟨h.1, h.2.1, h.2.2.1⟩

/-! ## Claim C7 -/

theorem foldl_argmax (cs : List String) :
    ∀ (l : List String) (acc : Option String) (d : String),
      l.foldl (fun best c =>
        match best with
        | none => some c
        | some b => if cs.count b < cs.count c then some c else best) acc = some d →
      (∀ c ∈ l, cs.count c ≤ cs.count d) ∧
      (∀ b, acc = some b → cs.count b ≤ cs.count d) ∧
      (acc = some d ∨ d ∈ l) := by
  intro l
  induction l with
  | nil =>
    intro acc d h
    simp only [List.foldl_nil] at h
    refine ⟨by simp, ?_, Or.inl h⟩
    intro b hb
    rw [hb] at h
    simp only [Option.some_inj] at h
    exact le_of_eq (by rw [h])
  | cons c rest ih =>
    intro acc d h
    simp only [List.foldl_cons] at h
    have hih := ih _ d h
    have hcle : cs.count c ≤ cs.count d := by
      rcases acc with _ | b
      · exact hih.2.1 c rfl
      · by_cases hlt : cs.count b < cs.count c
        · exact hih.2.1 c (by simp [hlt])
        · have hb := hih.2.1 b (by simp [hlt])
          omega
    refine ⟨?_, ?_, ?_⟩
    · intro x hx
      rcases List.mem_cons.mp hx with hx | hx
      · rw [hx]; exact hcle
      · exact hih.1 x hx
    · intro b hb
      subst hb
      by_cases hlt : cs.count b < cs.count c
      · omega
      · exact hih.2.1 b (by simp [hlt])
    · rcases acc with _ | b
      · rcases hih.2.2 with hacc | hmem
        · have hacc' : some c = some d := hacc
          simp only [Option.some_inj] at hacc'
          exact Or.inr (by rw [← hacc']; exact List.mem_cons_self c rest)
        · exact Or.inr (List.mem_cons_of_mem c hmem)
      · rcases hih.2.2 with hacc | hmem
        · have hacc' : (if cs.count b < cs.count c then some c else some b) = some d := hacc
          by_cases hlt : cs.count b < cs.count c
          · rw [if_pos hlt] at hacc'
            simp only [Option.some_inj] at hacc'
            exact Or.inr (by rw [← hacc']; exact List.mem_cons_self c rest)
          · rw [if_neg hlt] at hacc'
            exact Or.inl hacc'
        · exact Or.inr (List.mem_cons_of_mem c hmem)

/-- Claim C7: the dominant condition of a non-empty window is a
weather_condition value occurring in the window whose count is maximal, and
over the fixture window with counts Clear: 3, Rain: 5, Snow: 2 it is
"Rain". -/
theorem spec_C7 (w : List DayRow) (d : String) (hd : dominantCondition w = some d) :
    (∀ r ∈ w, (w.map (fun x => x.weather_condition)).count r.weather_condition ≤
      (w.map (fun x => x.weather_condition)).count d) ∧
    d ∈ w.map (fun x => x.weather_condition) ∧
    dominantCondition condFixture = some "Rain" := by
  unfold dominantCondition at hd
  have h := foldl_argmax (w.map (fun r => r.weather_condition))
    (w.map (fun r => r.weather_condition)).dedup none d hd
  refine ⟨?_, ?_, by decide⟩
  · intro r hr
    exact h.1 r.weather_condition
      (List.mem_dedup.mpr (List.mem_map_of_mem (fun x => x.weather_condition) hr))
  · rcases h.2.2 with hacc | hmem
    · exact absurd hacc (by simp)
    · exact List.mem_dedup.mp hmem

/-- Concrete instance of C7: the fixture window with counts Clear: 3,
Rain: 5, Snow: 2 has dominant condition "Rain", of maximal count. -/
theorem spec_C7_witness :
    "Rain" ∈ condFixture.map (fun x => x.weather_condition) := by
  have h := spec_C7 condFixture "Rain" (by decide)
  exact h.2.1

/-! ## Upsert lemmas (for Claim C4) -/

theorem find?_append_of_none {α : Type} (p : α → Bool) :
    ∀ (l₁ l₂ : List α), l₁.find? p = none → (l₁ ++ l₂).find? p = l₂.find? p := by
  intro l₁
  induction l₁ with
  | nil => intro l₂ _; rfl
  | cons a l ih =>
    intro l₂ h
    cases hpa : p a with
    | true =>
      rw [List.find?_cons_of_pos _ hpa] at h
      exact absurd h (by simp)
    | false =>
      have h' : l.find? p = none := by
        rwa [List.find?_cons_of_neg _ (by simp [hpa])] at h
      rw [List.cons_append, List.find?_cons_of_neg _ (by simp [hpa])]
      exact ih l₂ h'

theorem updateFirst_map_key {Row K : Type} [DecidableEq K] (key : Row → K)
    (v : Row) (k : K) (hk : key v = k) :
    ∀ st : List Row, (updateFirst key st k v).map key = st.map key := by
  intro st
  induction st with
  | nil => rfl
  | cons r rs ih =>
    by_cases h : key r = k
    · simp [updateFirst, h, hk]
    · simp [updateFirst, h, ih]

theorem updateFirst_self {Row K : Type} [DecidableEq K] (key : Row → K) (v : Row) :
    ∀ st : List Row, st.find? (fun r => decide (key r = key v)) = some v →
      updateFirst key st (key v) v = st := by
  intro st
  induction st with
  | nil => intro h; simp at h
  | cons r rs ih =>
    intro h
    by_cases hk : key r = key v
    · rw [List.find?_cons_of_pos _ (by simpa using hk)] at h
      simp only [Option.some_inj] at h
      subst h
      simp [updateFirst, hk]
    · rw [List.find?_cons_of_neg _ (by simpa using hk)] at h
      simp [updateFirst, hk, ih h]

theorem find?_updateFirst {Row K : Type} [DecidableEq K] (key : Row → K) (v : Row) :
    ∀ st : List Row,
      (updateFirst key st (key v) v).find? (fun r => decide (key r = key v)) =
        (st.find? (fun r => decide (key r = key v))).map (fun _ => v) := by
  intro st
  induction st with
  | nil => rfl
  | cons r rs ih =>
    by_cases hk : key r = key v
    · have h1 : (v :: rs).find? (fun r => decide (key r = key v)) = some v :=
        List.find?_cons_of_pos _ (by simp)
      have h2 : (r :: rs).find? (fun r => decide (key r = key v)) = some r :=
        List.find?_cons_of_pos _ (by simpa using hk)
      simp [updateFirst, hk, h1, h2]
    · have h2 : (r :: rs).find? (fun r => decide (key r = key v)) =
          rs.find? (fun r => decide (key r = key v)) :=
        List.find?_cons_of_neg _ (by simpa using hk)
      have h3 : (r :: updateFirst key rs (key v) v).find?
          (fun r => decide (key r = key v)) =
          (updateFirst key rs (key v) v).find? (fun r => decide (key r = key v)) :=
        List.find?_cons_of_neg _ (by simpa using hk)
      simp only [updateFirst, if_neg hk, h3, h2, ih]

theorem find?_updateFirst_ne {Row K : Type} [DecidableEq K] (key : Row → K)
    {v : K} {w : Row} (hne : key w ≠ v) :
    ∀ st : List Row,
      (updateFirst key st (key w) w).find? (fun r => decide (key r = v)) =
        st.find? (fun r => decide (key r = v)) := by
  intro st
  induction st with
  | nil => rfl
  | cons r rs ih =>
    by_cases hk : key r = key w
    · have hrv : ¬ key r = v := by rw [hk]; exact hne
      rw [updateFirst, if_pos hk, List.find?_cons_of_neg _ (by simpa using hne),
        List.find?_cons_of_neg _ (by simpa using hrv)]
    · rw [updateFirst, if_neg hk]
      by_cases hrv : key r = v
      · rw [List.find?_cons_of_pos _ (by simpa using hrv),
          List.find?_cons_of_pos _ (by simpa using hrv)]
      · rw [List.find?_cons_of_neg _ (by simpa using hrv),
          List.find?_cons_of_neg _ (by simpa using hrv), ih]

theorem upsert_find?_self {Row K : Type} [DecidableEq K] (key : Row → K)
    (st : List Row) (v : Row) :
    (upsert key st v).find? (fun r => decide (key r = key v)) = some v := by
  unfold upsert
  rcases h : st.find? (fun r => decide (key r = key v)) with _ | w
  · rw [find?_append_of_none _ st [v] h]
    simp
  · rw [find?_updateFirst key v st, h]
    rfl

theorem upsert_self {Row K : Type} [DecidableEq K] (key : Row → K)
    {st : List Row} {v : Row}
    (h : st.find? (fun r => decide (key r = key v)) = some v) :
    upsert key st v = st := by
  unfold upsert
  rw [h]
  exact updateFirst_self key v st h

theorem find?_upsert_ne {Row K : Type} [DecidableEq K] (key : Row → K)
    {v : K} {w : Row} (hne : key w ≠ v) (st : List Row) :
    (upsert key st w).find? (fun r => decide (key r = v)) =
      st.find? (fun r => decide (key r = v)) := by
  unfold upsert
  rcases h : st.find? (fun r => decide (key r = key w)) with _ | u
  · rcases hv : st.find? (fun r => decide (key r = v)) with _ | u'
    · rw [find?_append_of_none _ st [w] hv]
      simp [hne]
    · -- the first v-keyed row is in st, and appending w does not change it
      clear h
      induction st with
      | nil => simp at hv
      | cons r rs ih =>
        by_cases hrv : key r = v
        · rw [List.find?_cons_of_pos _ (by simpa using hrv)] at hv
          rw [List.cons_append, List.find?_cons_of_pos _ (by simpa using hrv), hv]
        · rw [List.find?_cons_of_neg _ (by simpa using hrv)] at hv
          rw [List.cons_append, List.find?_cons_of_neg _ (by simpa using hrv), ih hv]
  · exact find?_updateFirst_ne key hne st

theorem upsert_map_key_nodup {Row K : Type} [DecidableEq K] (key : Row → K)
    (st : List Row) (v : Row) (h : (st.map key).Nodup) :
    ((upsert key st v).map key).Nodup := by
  unfold upsert
  rcases hf : st.find? (fun r => decide (key r = key v)) with _ | w
  · have hnm : key v ∉ st.map key := by
      intro hmem
      obtain ⟨r, hr, hkr⟩ := List.mem_map.mp hmem
      have hc := List.find?_eq_none.mp hf r hr
      simp only [decide_eq_true_eq] at hc
      exact hc hkr
    rw [List.map_append]
    refine List.nodup_append.mpr ⟨h, by simp, ?_⟩
    intro a ha hb
    simp only [List.map_cons, List.map_nil, List.mem_singleton] at hb
    subst hb
    exact hnm ha
  · rw [updateFirst_map_key key v (key v) rfl st]
    exact h

theorem foldl_upsert_find?_ne {Row K : Type} [DecidableEq K] (key : Row → K) (v : K) :
    ∀ (l : List Row) (st : List Row), (∀ w ∈ l, key w ≠ v) →
      (l.foldl (upsert key) st).find? (fun r => decide (key r = v)) =
        st.find? (fun r => decide (key r = v)) := by
  intro l
  induction l with
  | nil => intro st _; rfl
  | cons w rest ih =>
    intro st hne
    simp only [List.foldl_cons]
    rw [ih (upsert key st w) (fun x hx => hne x (List.mem_cons_of_mem w hx)),
      find?_upsert_ne key (hne w (List.mem_cons_self w rest)) st]

theorem foldl_upsert_idem {Row K : Type} [DecidableEq K] (key : Row → K) :
    ∀ (l : List Row) (st : List Row), (l.map key).Nodup →
      l.foldl (upsert key) (l.foldl (upsert key) st) = l.foldl (upsert key) st := by
  intro l
  induction l with
  | nil => intro st _; rfl
  | cons v rest ih =>
    intro st hnd
    obtain ⟨h1, h2⟩ : (∀ x ∈ rest, ¬ key x = key v) ∧ (rest.map key).Nodup := by
      simpa using hnd
    have hne : ∀ w ∈ rest, key w ≠ key v := h1
    simp only [List.foldl_cons]
    have hfind : (rest.foldl (upsert key) (upsert key st v)).find?
        (fun r => decide (key r = key v)) = some v := by
      rw [foldl_upsert_find?_ne key (key v) rest (upsert key st v) hne]
      exact upsert_find?_self key st v
    rw [upsert_self key hfind]
    exact ih (upsert key st v) h2

theorem foldl_upsert_nodup {Row K : Type} [DecidableEq K] (key : Row → K) :
    ∀ (l : List Row) (st : List Row), (st.map key).Nodup →
      ((l.foldl (upsert key) st).map key).Nodup := by
  intro l
  induction l with
  | nil => intro st h; exact h
  | cons v rest ih =>
    intro st h
    simp only [List.foldl_cons]
    exact ih (upsert key st v) (upsert_map_key_nodup key st v h)

/-! ## Claim C4 -/

theorem ingest_weather_data_eq_foldl (st : List DayRow) (c : ℕ) (recs : List DayRec) :
    ingest_weather_data st c recs = (recs.map (dayRowOf c)).foldl (upsert dayKey) st := by
  rw [List.foldl_map]
  rfl

theorem dayKeys_nodup (c : ℕ) (recs : List DayRec)
    (h : (recs.map (fun r => r.date)).Nodup) :
    ((recs.map (dayRowOf c)).map dayKey).Nodup := by
  have he : (recs.map (dayRowOf c)).map dayKey =
      (recs.map (fun r => r.date)).map (fun d => (c, d)) := by
    simp only [List.map_map]
    rfl
  rw [he]
  exact h.map (fun a b hab => by simpa using hab)

theorem calculate_weather_stats_idem (rows : List DayRow) (stats : List StatRow)
    (c today : ℕ) :
    calculate_weather_stats rows (calculate_weather_stats rows stats c today) c today =
      calculate_weather_stats rows stats c today := by
  simp only [calculate_weather_stats, List.foldl_cons, List.foldl_nil]
  rcases h7 : calcPeriodStat rows c today 7 with _ | v7 <;>
    rcases h30 : calcPeriodStat rows c today 30 with _ | v30
  · rfl
  · exact upsert_self statKey (upsert_find?_self statKey stats ⟨c, today, 30, v30⟩)
  · exact upsert_self statKey (upsert_find?_self statKey stats ⟨c, today, 7, v7⟩)
  · have hne : statKey (⟨c, today, 30, v30⟩ : StatRow) ≠
        statKey (⟨c, today, 7, v7⟩ : StatRow) := by
      simp [statKey]
    have hfind7 : ((upsert statKey (upsert statKey stats ⟨c, today, 7, v7⟩)
        ⟨c, today, 30, v30⟩).find?
          (fun r => decide (statKey r = statKey (⟨c, today, 7, v7⟩ : StatRow)))) =
        some ⟨c, today, 7, v7⟩ := by
      rw [find?_upsert_ne statKey hne]
      exact upsert_find?_self statKey stats ⟨c, today, 7, v7⟩
    have e1 : upsert statKey (upsert statKey (upsert statKey stats
        ⟨c, today, 7, v7⟩) ⟨c, today, 30, v30⟩) ⟨c, today, 7, v7⟩ =
        upsert statKey (upsert statKey stats ⟨c, today, 7, v7⟩) ⟨c, today, 30, v30⟩ :=
      upsert_self statKey hfind7
    have e2 : upsert statKey (upsert statKey (upsert statKey stats
        ⟨c, today, 7, v7⟩) ⟨c, today, 30, v30⟩) ⟨c, today, 30, v30⟩ =
        upsert statKey (upsert statKey stats ⟨c, today, 7, v7⟩) ⟨c, today, 30, v30⟩ :=
      upsert_self statKey (upsert_find?_self statKey _ _)
    show upsert statKey (upsert statKey (upsert statKey (upsert statKey stats
        ⟨c, today, 7, v7⟩) ⟨c, today, 30, v30⟩) ⟨c, today, 7, v7⟩) ⟨c, today, 30, v30⟩ =
      upsert statKey (upsert statKey stats ⟨c, today, 7, v7⟩) ⟨c, today, 30, v30⟩
    rw [e1, e2]

theorem calculate_weather_stats_nodup (rows : List DayRow) (stats : List StatRow)
    (c today : ℕ) (h : (stats.map statKey).Nodup) :
    ((calculate_weather_stats rows stats c today).map statKey).Nodup := by
  simp only [calculate_weather_stats, List.foldl_cons, List.foldl_nil]
  rcases calcPeriodStat rows c today 7 with _ | v7 <;>
    rcases calcPeriodStat rows c today 30 with _ | v30
  · exact h
  · exact upsert_map_key_nodup statKey _ _ h
  · exact upsert_map_key_nodup statKey _ _ h
  · exact upsert_map_key_nodup statKey _ _ (upsert_map_key_nodup statKey _ _ h)

/-- Claim C4: for any well-formed starting store (unique keys, as the schema
constraints UC_city_date and UC_city_date_period guarantee) and any input
series with distinct dates, running the per-location ingest sequence twice
with the same inputs yields exactly the state of the first run (the second
run only overwrites), so row counts are idempotent, and both stores keep at
most one row per natural key. -/
theorem spec_C4 (dayStore : List DayRow) (statStore : List StatRow) (c today : ℕ)
    (recs : List DayRec) (hdates : (recs.map (fun r => r.date)).Nodup)
    (hday : (dayStore.map dayKey).Nodup) (hstat : (statStore.map statKey).Nodup) :
    ingestRun (ingestRun dayStore statStore c today recs).1
        (ingestRun dayStore statStore c today recs).2 c today recs =
      ingestRun dayStore statStore c today recs ∧
    ((ingestRun dayStore statStore c today recs).1.map dayKey).Nodup ∧
    ((ingestRun dayStore statStore c today recs).2.map statKey).Nodup ∧
    (ingestRun (ingestRun dayStore statStore c today recs).1
        (ingestRun dayStore statStore c today recs).2 c today recs).1.length =
      (ingestRun dayStore statStore c today recs).1.length ∧
    (ingestRun (ingestRun dayStore statStore c today recs).1
        (ingestRun dayStore statStore c today recs).2 c today recs).2.length =
      (ingestRun dayStore statStore c today recs).2.length := by
  have hdayeq : ingest_weather_data (ingest_weather_data dayStore c recs) c recs =
      ingest_weather_data dayStore c recs := by
    rw [ingest_weather_data_eq_foldl dayStore c recs,
      ingest_weather_data_eq_foldl ((recs.map (dayRowOf c)).foldl (upsert dayKey) dayStore)
        c recs]
    exact foldl_upsert_idem dayKey (recs.map (dayRowOf c)) dayStore
      (dayKeys_nodup c recs hdates)
  have hpair : ingestRun (ingestRun dayStore statStore c today recs).1
      (ingestRun dayStore statStore c today recs).2 c today recs =
      ingestRun dayStore statStore c today recs := by
    simp only [ingestRun]
    rw [hdayeq, calculate_weather_stats_idem]
  refine ⟨hpair, ?_, ?_, ?_, ?_⟩
  · show ((ingest_weather_data dayStore c recs).map dayKey).Nodup
    rw [ingest_weather_data_eq_foldl]
    exact foldl_upsert_nodup dayKey (recs.map (dayRowOf c)) dayStore hday
  · show ((calculate_weather_stats (ingest_weather_data dayStore c recs) statStore
      c today).map statKey).Nodup
    exact calculate_weather_stats_nodup _ _ _ _ hstat
  · exact congrArg (fun p => p.1.length) hpair
  · exact congrArg (fun p => p.2.length) hpair

/-- Concrete instance of C4: re-ingesting one record into empty stores. -/
theorem spec_C4_witness :
    ingestRun (ingestRun [] [] 1 30 [⟨25, 20, 15, 25, 20, none, none, 5, 0,
        "Clear", "clear sky"⟩]).1
      (ingestRun [] [] 1 30 [⟨25, 20, 15, 25, 20, none, none, 5, 0,
        "Clear", "clear sky"⟩]).2 1 30
      [⟨25, 20, 15, 25, 20, none, none, 5, 0, "Clear", "clear sky"⟩] =
    ingestRun [] [] 1 30 [⟨25, 20, 15, 25, 20, none, none, 5, 0,
      "Clear", "clear sky"⟩] :=
  (spec_C4 [] [] 1 30 [⟨25, 20, 15, 25, 20, none, none, 5, 0, "Clear", "clear sky"⟩]
    (by simp) (by simp) (by simp)).1

end Weather
